import Mathlib

/-
Verification of the symbol-renaming table in
trust-dns-resolver/ring/pregenerated/ring_core_generated/prefix_symbols_asm.h.
The header consists of two platform branches (Apple and non-Apple), each a
list of rename rules from a canonical symbol name to an exported symbol name.
Each rule below is transcribed directly from the corresponding rename line of
the header, in source order.
-/

namespace SymbolsAsm

/-- The platform conditional of the header: Apple-style symbols carry a
leading underscore, other platforms use the plain name. -/
inductive PlatformClass where
  | apple
  | nonApple
deriving DecidableEq

/-- The Apple branch of the header, one pair per rename rule, in order. -/
def appleTable : List (String × String) := [
  ("_ecp_nistz256_point_double", "_p256_point_double"),
  ("_ecp_nistz256_point_add", "_p256_point_add"),
  ("_ecp_nistz256_point_add_affine", "_p256_point_add_affine"),
  ("_ecp_nistz256_ord_mul_mont", "_p256_scalar_mul_mont"),
  ("_ecp_nistz256_ord_sqr_mont", "_p256_scalar_sqr_rep_mont"),
  ("_ecp_nistz256_mul_mont", "_p256_mul_mont"),
  ("_ecp_nistz256_sqr_mont", "_p256_sqr_mont"),
  ("_adx_bmi2_available", "_ring_core_0_17_14__adx_bmi2_available"),
  ("_avx2_available", "_ring_core_0_17_14__avx2_available"),
  ("_CRYPTO_memcmp", "_ring_core_0_17_14__CRYPTO_memcmp"),
  ("_CRYPTO_poly1305_finish", "_ring_core_0_17_14__CRYPTO_poly1305_finish"),
  ("_CRYPTO_poly1305_finish_neon", "_ring_core_0_17_14__CRYPTO_poly1305_finish_neon"),
  ("_CRYPTO_poly1305_init", "_ring_core_0_17_14__CRYPTO_poly1305_init"),
  ("_CRYPTO_poly1305_init_neon", "_ring_core_0_17_14__CRYPTO_poly1305_init_neon"),
  ("_CRYPTO_poly1305_update", "_ring_core_0_17_14__CRYPTO_poly1305_update"),
  ("_CRYPTO_poly1305_update_neon", "_ring_core_0_17_14__CRYPTO_poly1305_update_neon"),
  ("_ChaCha20_ctr32", "_ring_core_0_17_14__ChaCha20_ctr32"),
  ("_ChaCha20_ctr32_avx2", "_ring_core_0_17_14__ChaCha20_ctr32_avx2"),
  ("_ChaCha20_ctr32_neon", "_ring_core_0_17_14__ChaCha20_ctr32_neon"),
  ("_ChaCha20_ctr32_nohw", "_ring_core_0_17_14__ChaCha20_ctr32_nohw"),
  ("_ChaCha20_ctr32_ssse3", "_ring_core_0_17_14__ChaCha20_ctr32_ssse3"),
  ("_ChaCha20_ctr32_ssse3_4x", "_ring_core_0_17_14__ChaCha20_ctr32_ssse3_4x"),
  ("_LIMB_is_zero", "_ring_core_0_17_14__LIMB_is_zero"),
  ("_LIMBS_add_mod", "_ring_core_0_17_14__LIMBS_add_mod"),
  ("_LIMBS_are_zero", "_ring_core_0_17_14__LIMBS_are_zero"),
  ("_LIMBS_equal", "_ring_core_0_17_14__LIMBS_equal"),
  ("_LIMBS_less_than", "_ring_core_0_17_14__LIMBS_less_than"),
  ("_LIMBS_reduce_once", "_ring_core_0_17_14__LIMBS_reduce_once"),
  ("_LIMBS_select_512_32", "_ring_core_0_17_14__LIMBS_select_512_32"),
  ("_LIMBS_shl_mod", "_ring_core_0_17_14__LIMBS_shl_mod"),
  ("_LIMBS_sub_mod", "_ring_core_0_17_14__LIMBS_sub_mod"),
  ("_LIMBS_window5_split_window", "_ring_core_0_17_14__LIMBS_window5_split_window"),
  ("_LIMBS_window5_unsplit_window", "_ring_core_0_17_14__LIMBS_window5_unsplit_window"),
  ("_LIMB_shr", "_ring_core_0_17_14__LIMB_shr"),
  ("_OPENSSL_cpuid_setup", "_ring_core_0_17_14__OPENSSL_cpuid_setup"),
  ("_aes_gcm_dec_kernel", "_ring_core_0_17_14__aes_gcm_dec_kernel"),
  ("_aes_gcm_dec_update_vaes_avx2", "_ring_core_0_17_14__aes_gcm_dec_update_vaes_avx2"),
  ("_aes_gcm_enc_kernel", "_ring_core_0_17_14__aes_gcm_enc_kernel"),
  ("_aes_gcm_enc_update_vaes_avx2", "_ring_core_0_17_14__aes_gcm_enc_update_vaes_avx2"),
  ("_aes_hw_ctr32_encrypt_blocks", "_ring_core_0_17_14__aes_hw_ctr32_encrypt_blocks"),
  ("_aes_hw_set_encrypt_key", "_ring_core_0_17_14__aes_hw_set_encrypt_key"),
  ("_aes_hw_set_encrypt_key_alt", "_ring_core_0_17_14__aes_hw_set_encrypt_key_alt"),
  ("_aes_hw_set_encrypt_key_base", "_ring_core_0_17_14__aes_hw_set_encrypt_key_base"),
  ("_aes_nohw_ctr32_encrypt_blocks", "_ring_core_0_17_14__aes_nohw_ctr32_encrypt_blocks"),
  ("_aes_nohw_encrypt", "_ring_core_0_17_14__aes_nohw_encrypt"),
  ("_aes_nohw_set_encrypt_key", "_ring_core_0_17_14__aes_nohw_set_encrypt_key"),
  ("_aesni_gcm_decrypt", "_ring_core_0_17_14__aesni_gcm_decrypt"),
  ("_aesni_gcm_encrypt", "_ring_core_0_17_14__aesni_gcm_encrypt"),
  ("_bn_from_montgomery_in_place", "_ring_core_0_17_14__bn_from_montgomery_in_place"),
  ("_bn_gather5", "_ring_core_0_17_14__bn_gather5"),
  ("_bn_mul_mont", "_ring_core_0_17_14__bn_mul_mont"),
  ("_bn_mul_mont_nohw", "_ring_core_0_17_14__bn_mul_mont_nohw"),
  ("_bn_mul4x_mont", "_ring_core_0_17_14__bn_mul4x_mont"),
  ("_bn_mulx4x_mont", "_ring_core_0_17_14__bn_mulx4x_mont"),
  ("_bn_mul8x_mont_neon", "_ring_core_0_17_14__bn_mul8x_mont_neon"),
  ("_bn_mul4x_mont_gather5", "_ring_core_0_17_14__bn_mul4x_mont_gather5"),
  ("_bn_mulx4x_mont_gather5", "_ring_core_0_17_14__bn_mulx4x_mont_gather5"),
  ("_bn_neg_inv_mod_r_u64", "_ring_core_0_17_14__bn_neg_inv_mod_r_u64"),
  ("_bn_power5_nohw", "_ring_core_0_17_14__bn_power5_nohw"),
  ("_bn_powerx5", "_ring_core_0_17_14__bn_powerx5"),
  ("_bn_scatter5", "_ring_core_0_17_14__bn_scatter5"),
  ("_bn_sqr8x_internal", "_ring_core_0_17_14__bn_sqr8x_internal"),
  ("_bn_sqr8x_mont", "_ring_core_0_17_14__bn_sqr8x_mont"),
  ("_bn_sqrx8x_internal", "_ring_core_0_17_14__bn_sqrx8x_internal"),
  ("_bsaes_ctr32_encrypt_blocks", "_ring_core_0_17_14__bsaes_ctr32_encrypt_blocks"),
  ("_bssl_constant_time_test_conditional_memcpy", "_ring_core_0_17_14__bssl_constant_time_test_conditional_memcpy"),
  ("_bssl_constant_time_test_conditional_memxor", "_ring_core_0_17_14__bssl_constant_time_test_conditional_memxor"),
  ("_bssl_constant_time_test_main", "_ring_core_0_17_14__bssl_constant_time_test_main"),
  ("_chacha20_poly1305_open", "_ring_core_0_17_14__chacha20_poly1305_open"),
  ("_chacha20_poly1305_open_avx2", "_ring_core_0_17_14__chacha20_poly1305_open_avx2"),
  ("_chacha20_poly1305_open_sse41", "_ring_core_0_17_14__chacha20_poly1305_open_sse41"),
  ("_chacha20_poly1305_seal", "_ring_core_0_17_14__chacha20_poly1305_seal"),
  ("_chacha20_poly1305_seal_avx2", "_ring_core_0_17_14__chacha20_poly1305_seal_avx2"),
  ("_chacha20_poly1305_seal_sse41", "_ring_core_0_17_14__chacha20_poly1305_seal_sse41"),
  ("_ecp_nistz256_mul_mont_adx", "_ring_core_0_17_14__ecp_nistz256_mul_mont_adx"),
  ("_ecp_nistz256_mul_mont_nohw", "_ring_core_0_17_14__ecp_nistz256_mul_mont_nohw"),
  ("_ecp_nistz256_ord_mul_mont_adx", "_ring_core_0_17_14__ecp_nistz256_ord_mul_mont_adx"),
  ("_ecp_nistz256_ord_mul_mont_nohw", "_ring_core_0_17_14__ecp_nistz256_ord_mul_mont_nohw"),
  ("_ecp_nistz256_ord_sqr_mont_adx", "_ring_core_0_17_14__ecp_nistz256_ord_sqr_mont_adx"),
  ("_ecp_nistz256_ord_sqr_mont_nohw", "_ring_core_0_17_14__ecp_nistz256_ord_sqr_mont_nohw"),
  ("_ecp_nistz256_point_add_adx", "_ring_core_0_17_14__ecp_nistz256_point_add_adx"),
  ("_ecp_nistz256_point_add_nohw", "_ring_core_0_17_14__ecp_nistz256_point_add_nohw"),
  ("_ecp_nistz256_point_add_affine_adx", "_ring_core_0_17_14__ecp_nistz256_point_add_affine_adx"),
  ("_ecp_nistz256_point_add_affine_nohw", "_ring_core_0_17_14__ecp_nistz256_point_add_affine_nohw"),
  ("_ecp_nistz256_point_double_adx", "_ring_core_0_17_14__ecp_nistz256_point_double_adx"),
  ("_ecp_nistz256_point_double_nohw", "_ring_core_0_17_14__ecp_nistz256_point_double_nohw"),
  ("_ecp_nistz256_select_w5_avx2", "_ring_core_0_17_14__ecp_nistz256_select_w5_avx2"),
  ("_ecp_nistz256_select_w5_nohw", "_ring_core_0_17_14__ecp_nistz256_select_w5_nohw"),
  ("_ecp_nistz256_select_w7_avx2", "_ring_core_0_17_14__ecp_nistz256_select_w7_avx2"),
  ("_ecp_nistz256_select_w7_nohw", "_ring_core_0_17_14__ecp_nistz256_select_w7_nohw"),
  ("_ecp_nistz256_sqr_mont_adx", "_ring_core_0_17_14__ecp_nistz256_sqr_mont_adx"),
  ("_ecp_nistz256_sqr_mont_nohw", "_ring_core_0_17_14__ecp_nistz256_sqr_mont_nohw"),
  ("_fiat_curve25519_adx_mul", "_ring_core_0_17_14__fiat_curve25519_adx_mul"),
  ("_fiat_curve25519_adx_square", "_ring_core_0_17_14__fiat_curve25519_adx_square"),
  ("_gcm_ghash_avx", "_ring_core_0_17_14__gcm_ghash_avx"),
  ("_gcm_ghash_clmul", "_ring_core_0_17_14__gcm_ghash_clmul"),
  ("_gcm_ghash_neon", "_ring_core_0_17_14__gcm_ghash_neon"),
  ("_gcm_ghash_vpclmulqdq_avx2_1", "_ring_core_0_17_14__gcm_ghash_vpclmulqdq_avx2_1"),
  ("_gcm_gmult_clmul", "_ring_core_0_17_14__gcm_gmult_clmul"),
  ("_gcm_gmult_neon", "_ring_core_0_17_14__gcm_gmult_neon"),
  ("_gcm_init_avx", "_ring_core_0_17_14__gcm_init_avx"),
  ("_gcm_init_clmul", "_ring_core_0_17_14__gcm_init_clmul"),
  ("_gcm_init_neon", "_ring_core_0_17_14__gcm_init_neon"),
  ("_gcm_init_vpclmulqdq_avx2", "_ring_core_0_17_14__gcm_init_vpclmulqdq_avx2"),
  ("_k25519Precomp", "_ring_core_0_17_14__k25519Precomp"),
  ("_limbs_mul_add_limb", "_ring_core_0_17_14__limbs_mul_add_limb"),
  ("_little_endian_bytes_from_scalar", "_ring_core_0_17_14__little_endian_bytes_from_scalar"),
  ("_ecp_nistz256_neg", "_ring_core_0_17_14__ecp_nistz256_neg"),
  ("_ecp_nistz256_select_w5", "_ring_core_0_17_14__ecp_nistz256_select_w5"),
  ("_ecp_nistz256_select_w7", "_ring_core_0_17_14__ecp_nistz256_select_w7"),
  ("_neon_available", "_ring_core_0_17_14__neon_available"),
  ("_p256_mul_mont", "_ring_core_0_17_14__p256_mul_mont"),
  ("_p256_point_add", "_ring_core_0_17_14__p256_point_add"),
  ("_p256_point_add_affine", "_ring_core_0_17_14__p256_point_add_affine"),
  ("_p256_point_double", "_ring_core_0_17_14__p256_point_double"),
  ("_p256_point_mul", "_ring_core_0_17_14__p256_point_mul"),
  ("_p256_point_mul_base", "_ring_core_0_17_14__p256_point_mul_base"),
  ("_p256_point_mul_base_vartime", "_ring_core_0_17_14__p256_point_mul_base_vartime"),
  ("_p256_scalar_mul_mont", "_ring_core_0_17_14__p256_scalar_mul_mont"),
  ("_p256_scalar_sqr_rep_mont", "_ring_core_0_17_14__p256_scalar_sqr_rep_mont"),
  ("_p256_sqr_mont", "_ring_core_0_17_14__p256_sqr_mont"),
  ("_p384_elem_div_by_2", "_ring_core_0_17_14__p384_elem_div_by_2"),
  ("_p384_elem_mul_mont", "_ring_core_0_17_14__p384_elem_mul_mont"),
  ("_p384_elem_neg", "_ring_core_0_17_14__p384_elem_neg"),
  ("_p384_elem_sub", "_ring_core_0_17_14__p384_elem_sub"),
  ("_p384_point_add", "_ring_core_0_17_14__p384_point_add"),
  ("_p384_point_double", "_ring_core_0_17_14__p384_point_double"),
  ("_p384_point_mul", "_ring_core_0_17_14__p384_point_mul"),
  ("_p384_scalar_mul_mont", "_ring_core_0_17_14__p384_scalar_mul_mont"),
  ("_openssl_poly1305_neon2_addmulmod", "_ring_core_0_17_14__openssl_poly1305_neon2_addmulmod"),
  ("_openssl_poly1305_neon2_blocks", "_ring_core_0_17_14__openssl_poly1305_neon2_blocks"),
  ("_sha256_block_data_order", "_ring_core_0_17_14__sha256_block_data_order"),
  ("_sha256_block_data_order_avx", "_ring_core_0_17_14__sha256_block_data_order_avx"),
  ("_sha256_block_data_order_ssse3", "_ring_core_0_17_14__sha256_block_data_order_ssse3"),
  ("_sha256_block_data_order_hw", "_ring_core_0_17_14__sha256_block_data_order_hw"),
  ("_sha256_block_data_order_neon", "_ring_core_0_17_14__sha256_block_data_order_neon"),
  ("_sha256_block_data_order_nohw", "_ring_core_0_17_14__sha256_block_data_order_nohw"),
  ("_sha512_block_data_order", "_ring_core_0_17_14__sha512_block_data_order"),
  ("_sha512_block_data_order_avx", "_ring_core_0_17_14__sha512_block_data_order_avx"),
  ("_sha512_block_data_order_hw", "_ring_core_0_17_14__sha512_block_data_order_hw"),
  ("_sha512_block_data_order_neon", "_ring_core_0_17_14__sha512_block_data_order_neon"),
  ("_sha512_block_data_order_nohw", "_ring_core_0_17_14__sha512_block_data_order_nohw"),
  ("_vpaes_ctr32_encrypt_blocks", "_ring_core_0_17_14__vpaes_ctr32_encrypt_blocks"),
  ("_vpaes_encrypt", "_ring_core_0_17_14__vpaes_encrypt"),
  ("_vpaes_encrypt_key_to_bsaes", "_ring_core_0_17_14__vpaes_encrypt_key_to_bsaes"),
  ("_vpaes_set_encrypt_key", "_ring_core_0_17_14__vpaes_set_encrypt_key"),
  ("_x25519_NEON", "_ring_core_0_17_14__x25519_NEON"),
  ("_x25519_fe_invert", "_ring_core_0_17_14__x25519_fe_invert"),
  ("_x25519_fe_isnegative", "_ring_core_0_17_14__x25519_fe_isnegative"),
  ("_x25519_fe_mul_ttt", "_ring_core_0_17_14__x25519_fe_mul_ttt"),
  ("_x25519_fe_neg", "_ring_core_0_17_14__x25519_fe_neg"),
  ("_x25519_fe_tobytes", "_ring_core_0_17_14__x25519_fe_tobytes"),
  ("_x25519_ge_double_scalarmult_vartime", "_ring_core_0_17_14__x25519_ge_double_scalarmult_vartime"),
  ("_x25519_ge_frombytes_vartime", "_ring_core_0_17_14__x25519_ge_frombytes_vartime"),
  ("_x25519_ge_scalarmult_base", "_ring_core_0_17_14__x25519_ge_scalarmult_base"),
  ("_x25519_ge_scalarmult_base_adx", "_ring_core_0_17_14__x25519_ge_scalarmult_base_adx"),
  ("_x25519_public_from_private_generic_masked", "_ring_core_0_17_14__x25519_public_from_private_generic_masked"),
  ("_x25519_sc_mask", "_ring_core_0_17_14__x25519_sc_mask"),
  ("_x25519_sc_muladd", "_ring_core_0_17_14__x25519_sc_muladd"),
  ("_x25519_sc_reduce", "_ring_core_0_17_14__x25519_sc_reduce"),
  ("_x25519_scalar_mult_adx", "_ring_core_0_17_14__x25519_scalar_mult_adx"),
  ("_x25519_scalar_mult_generic_masked", "_ring_core_0_17_14__x25519_scalar_mult_generic_masked")
]

/-- The non-Apple branch of the header, one pair per rename rule, in order. -/
def nonAppleTable : List (String × String) := [
  ("ecp_nistz256_point_double", "p256_point_double"),
  ("ecp_nistz256_point_add", "p256_point_add"),
  ("ecp_nistz256_point_add_affine", "p256_point_add_affine"),
  ("ecp_nistz256_ord_mul_mont", "p256_scalar_mul_mont"),
  ("ecp_nistz256_ord_sqr_mont", "p256_scalar_sqr_rep_mont"),
  ("ecp_nistz256_mul_mont", "p256_mul_mont"),
  ("ecp_nistz256_sqr_mont", "p256_sqr_mont"),
  ("adx_bmi2_available", "ring_core_0_17_14__adx_bmi2_available"),
  ("avx2_available", "ring_core_0_17_14__avx2_available"),
  ("CRYPTO_memcmp", "ring_core_0_17_14__CRYPTO_memcmp"),
  ("CRYPTO_poly1305_finish", "ring_core_0_17_14__CRYPTO_poly1305_finish"),
  ("CRYPTO_poly1305_finish_neon", "ring_core_0_17_14__CRYPTO_poly1305_finish_neon"),
  ("CRYPTO_poly1305_init", "ring_core_0_17_14__CRYPTO_poly1305_init"),
  ("CRYPTO_poly1305_init_neon", "ring_core_0_17_14__CRYPTO_poly1305_init_neon"),
  ("CRYPTO_poly1305_update", "ring_core_0_17_14__CRYPTO_poly1305_update"),
  ("CRYPTO_poly1305_update_neon", "ring_core_0_17_14__CRYPTO_poly1305_update_neon"),
  ("ChaCha20_ctr32", "ring_core_0_17_14__ChaCha20_ctr32"),
  ("ChaCha20_ctr32_avx2", "ring_core_0_17_14__ChaCha20_ctr32_avx2"),
  ("ChaCha20_ctr32_neon", "ring_core_0_17_14__ChaCha20_ctr32_neon"),
  ("ChaCha20_ctr32_nohw", "ring_core_0_17_14__ChaCha20_ctr32_nohw"),
  ("ChaCha20_ctr32_ssse3", "ring_core_0_17_14__ChaCha20_ctr32_ssse3"),
  ("ChaCha20_ctr32_ssse3_4x", "ring_core_0_17_14__ChaCha20_ctr32_ssse3_4x"),
  ("LIMB_is_zero", "ring_core_0_17_14__LIMB_is_zero"),
  ("LIMBS_add_mod", "ring_core_0_17_14__LIMBS_add_mod"),
  ("LIMBS_are_zero", "ring_core_0_17_14__LIMBS_are_zero"),
  ("LIMBS_equal", "ring_core_0_17_14__LIMBS_equal"),
  ("LIMBS_less_than", "ring_core_0_17_14__LIMBS_less_than"),
  ("LIMBS_reduce_once", "ring_core_0_17_14__LIMBS_reduce_once"),
  ("LIMBS_select_512_32", "ring_core_0_17_14__LIMBS_select_512_32"),
  ("LIMBS_shl_mod", "ring_core_0_17_14__LIMBS_shl_mod"),
  ("LIMBS_sub_mod", "ring_core_0_17_14__LIMBS_sub_mod"),
  ("LIMBS_window5_split_window", "ring_core_0_17_14__LIMBS_window5_split_window"),
  ("LIMBS_window5_unsplit_window", "ring_core_0_17_14__LIMBS_window5_unsplit_window"),
  ("LIMB_shr", "ring_core_0_17_14__LIMB_shr"),
  ("OPENSSL_cpuid_setup", "ring_core_0_17_14__OPENSSL_cpuid_setup"),
  ("aes_gcm_dec_kernel", "ring_core_0_17_14__aes_gcm_dec_kernel"),
  ("aes_gcm_dec_update_vaes_avx2", "ring_core_0_17_14__aes_gcm_dec_update_vaes_avx2"),
  ("aes_gcm_enc_kernel", "ring_core_0_17_14__aes_gcm_enc_kernel"),
  ("aes_gcm_enc_update_vaes_avx2", "ring_core_0_17_14__aes_gcm_enc_update_vaes_avx2"),
  ("aes_hw_ctr32_encrypt_blocks", "ring_core_0_17_14__aes_hw_ctr32_encrypt_blocks"),
  ("aes_hw_set_encrypt_key", "ring_core_0_17_14__aes_hw_set_encrypt_key"),
  ("aes_hw_set_encrypt_key_alt", "ring_core_0_17_14__aes_hw_set_encrypt_key_alt"),
  ("aes_hw_set_encrypt_key_base", "ring_core_0_17_14__aes_hw_set_encrypt_key_base"),
  ("aes_nohw_ctr32_encrypt_blocks", "ring_core_0_17_14__aes_nohw_ctr32_encrypt_blocks"),
  ("aes_nohw_encrypt", "ring_core_0_17_14__aes_nohw_encrypt"),
  ("aes_nohw_set_encrypt_key", "ring_core_0_17_14__aes_nohw_set_encrypt_key"),
  ("aesni_gcm_decrypt", "ring_core_0_17_14__aesni_gcm_decrypt"),
  ("aesni_gcm_encrypt", "ring_core_0_17_14__aesni_gcm_encrypt"),
  ("bn_from_montgomery_in_place", "ring_core_0_17_14__bn_from_montgomery_in_place"),
  ("bn_gather5", "ring_core_0_17_14__bn_gather5"),
  ("bn_mul_mont", "ring_core_0_17_14__bn_mul_mont"),
  ("bn_mul_mont_nohw", "ring_core_0_17_14__bn_mul_mont_nohw"),
  ("bn_mul4x_mont", "ring_core_0_17_14__bn_mul4x_mont"),
  ("bn_mulx4x_mont", "ring_core_0_17_14__bn_mulx4x_mont"),
  ("bn_mul8x_mont_neon", "ring_core_0_17_14__bn_mul8x_mont_neon"),
  ("bn_mul4x_mont_gather5", "ring_core_0_17_14__bn_mul4x_mont_gather5"),
  ("bn_mulx4x_mont_gather5", "ring_core_0_17_14__bn_mulx4x_mont_gather5"),
  ("bn_neg_inv_mod_r_u64", "ring_core_0_17_14__bn_neg_inv_mod_r_u64"),
  ("bn_power5_nohw", "ring_core_0_17_14__bn_power5_nohw"),
  ("bn_powerx5", "ring_core_0_17_14__bn_powerx5"),
  ("bn_scatter5", "ring_core_0_17_14__bn_scatter5"),
  ("bn_sqr8x_internal", "ring_core_0_17_14__bn_sqr8x_internal"),
  ("bn_sqr8x_mont", "ring_core_0_17_14__bn_sqr8x_mont"),
  ("bn_sqrx8x_internal", "ring_core_0_17_14__bn_sqrx8x_internal"),
  ("bsaes_ctr32_encrypt_blocks", "ring_core_0_17_14__bsaes_ctr32_encrypt_blocks"),
  ("bssl_constant_time_test_conditional_memcpy", "ring_core_0_17_14__bssl_constant_time_test_conditional_memcpy"),
  ("bssl_constant_time_test_conditional_memxor", "ring_core_0_17_14__bssl_constant_time_test_conditional_memxor"),
  ("bssl_constant_time_test_main", "ring_core_0_17_14__bssl_constant_time_test_main"),
  ("chacha20_poly1305_open", "ring_core_0_17_14__chacha20_poly1305_open"),
  ("chacha20_poly1305_open_avx2", "ring_core_0_17_14__chacha20_poly1305_open_avx2"),
  ("chacha20_poly1305_open_sse41", "ring_core_0_17_14__chacha20_poly1305_open_sse41"),
  ("chacha20_poly1305_seal", "ring_core_0_17_14__chacha20_poly1305_seal"),
  ("chacha20_poly1305_seal_avx2", "ring_core_0_17_14__chacha20_poly1305_seal_avx2"),
  ("chacha20_poly1305_seal_sse41", "ring_core_0_17_14__chacha20_poly1305_seal_sse41"),
  ("ecp_nistz256_mul_mont_adx", "ring_core_0_17_14__ecp_nistz256_mul_mont_adx"),
  ("ecp_nistz256_mul_mont_nohw", "ring_core_0_17_14__ecp_nistz256_mul_mont_nohw"),
  ("ecp_nistz256_ord_mul_mont_adx", "ring_core_0_17_14__ecp_nistz256_ord_mul_mont_adx"),
  ("ecp_nistz256_ord_mul_mont_nohw", "ring_core_0_17_14__ecp_nistz256_ord_mul_mont_nohw"),
  ("ecp_nistz256_ord_sqr_mont_adx", "ring_core_0_17_14__ecp_nistz256_ord_sqr_mont_adx"),
  ("ecp_nistz256_ord_sqr_mont_nohw", "ring_core_0_17_14__ecp_nistz256_ord_sqr_mont_nohw"),
  ("ecp_nistz256_point_add_adx", "ring_core_0_17_14__ecp_nistz256_point_add_adx"),
  ("ecp_nistz256_point_add_nohw", "ring_core_0_17_14__ecp_nistz256_point_add_nohw"),
  ("ecp_nistz256_point_add_affine_adx", "ring_core_0_17_14__ecp_nistz256_point_add_affine_adx"),
  ("ecp_nistz256_point_add_affine_nohw", "ring_core_0_17_14__ecp_nistz256_point_add_affine_nohw"),
  ("ecp_nistz256_point_double_adx", "ring_core_0_17_14__ecp_nistz256_point_double_adx"),
  ("ecp_nistz256_point_double_nohw", "ring_core_0_17_14__ecp_nistz256_point_double_nohw"),
  ("ecp_nistz256_select_w5_avx2", "ring_core_0_17_14__ecp_nistz256_select_w5_avx2"),
  ("ecp_nistz256_select_w5_nohw", "ring_core_0_17_14__ecp_nistz256_select_w5_nohw"),
  ("ecp_nistz256_select_w7_avx2", "ring_core_0_17_14__ecp_nistz256_select_w7_avx2"),
  ("ecp_nistz256_select_w7_nohw", "ring_core_0_17_14__ecp_nistz256_select_w7_nohw"),
  ("ecp_nistz256_sqr_mont_adx", "ring_core_0_17_14__ecp_nistz256_sqr_mont_adx"),
  ("ecp_nistz256_sqr_mont_nohw", "ring_core_0_17_14__ecp_nistz256_sqr_mont_nohw"),
  ("fiat_curve25519_adx_mul", "ring_core_0_17_14__fiat_curve25519_adx_mul"),
  ("fiat_curve25519_adx_square", "ring_core_0_17_14__fiat_curve25519_adx_square"),
  ("gcm_ghash_avx", "ring_core_0_17_14__gcm_ghash_avx"),
  ("gcm_ghash_clmul", "ring_core_0_17_14__gcm_ghash_clmul"),
  ("gcm_ghash_neon", "ring_core_0_17_14__gcm_ghash_neon"),
  ("gcm_ghash_vpclmulqdq_avx2_1", "ring_core_0_17_14__gcm_ghash_vpclmulqdq_avx2_1"),
  ("gcm_gmult_clmul", "ring_core_0_17_14__gcm_gmult_clmul"),
  ("gcm_gmult_neon", "ring_core_0_17_14__gcm_gmult_neon"),
  ("gcm_init_avx", "ring_core_0_17_14__gcm_init_avx"),
  ("gcm_init_clmul", "ring_core_0_17_14__gcm_init_clmul"),
  ("gcm_init_neon", "ring_core_0_17_14__gcm_init_neon"),
  ("gcm_init_vpclmulqdq_avx2", "ring_core_0_17_14__gcm_init_vpclmulqdq_avx2"),
  ("k25519Precomp", "ring_core_0_17_14__k25519Precomp"),
  ("limbs_mul_add_limb", "ring_core_0_17_14__limbs_mul_add_limb"),
  ("little_endian_bytes_from_scalar", "ring_core_0_17_14__little_endian_bytes_from_scalar"),
  ("ecp_nistz256_neg", "ring_core_0_17_14__ecp_nistz256_neg"),
  ("ecp_nistz256_select_w5", "ring_core_0_17_14__ecp_nistz256_select_w5"),
  ("ecp_nistz256_select_w7", "ring_core_0_17_14__ecp_nistz256_select_w7"),
  ("neon_available", "ring_core_0_17_14__neon_available"),
  ("p256_mul_mont", "ring_core_0_17_14__p256_mul_mont"),
  ("p256_point_add", "ring_core_0_17_14__p256_point_add"),
  ("p256_point_add_affine", "ring_core_0_17_14__p256_point_add_affine"),
  ("p256_point_double", "ring_core_0_17_14__p256_point_double"),
  ("p256_point_mul", "ring_core_0_17_14__p256_point_mul"),
  ("p256_point_mul_base", "ring_core_0_17_14__p256_point_mul_base"),
  ("p256_point_mul_base_vartime", "ring_core_0_17_14__p256_point_mul_base_vartime"),
  ("p256_scalar_mul_mont", "ring_core_0_17_14__p256_scalar_mul_mont"),
  ("p256_scalar_sqr_rep_mont", "ring_core_0_17_14__p256_scalar_sqr_rep_mont"),
  ("p256_sqr_mont", "ring_core_0_17_14__p256_sqr_mont"),
  ("p384_elem_div_by_2", "ring_core_0_17_14__p384_elem_div_by_2"),
  ("p384_elem_mul_mont", "ring_core_0_17_14__p384_elem_mul_mont"),
  ("p384_elem_neg", "ring_core_0_17_14__p384_elem_neg"),
  ("p384_elem_sub", "ring_core_0_17_14__p384_elem_sub"),
  ("p384_point_add", "ring_core_0_17_14__p384_point_add"),
  ("p384_point_double", "ring_core_0_17_14__p384_point_double"),
  ("p384_point_mul", "ring_core_0_17_14__p384_point_mul"),
  ("p384_scalar_mul_mont", "ring_core_0_17_14__p384_scalar_mul_mont"),
  ("openssl_poly1305_neon2_addmulmod", "ring_core_0_17_14__openssl_poly1305_neon2_addmulmod"),
  ("openssl_poly1305_neon2_blocks", "ring_core_0_17_14__openssl_poly1305_neon2_blocks"),
  ("sha256_block_data_order", "ring_core_0_17_14__sha256_block_data_order"),
  ("sha256_block_data_order_avx", "ring_core_0_17_14__sha256_block_data_order_avx"),
  ("sha256_block_data_order_ssse3", "ring_core_0_17_14__sha256_block_data_order_ssse3"),
  ("sha256_block_data_order_hw", "ring_core_0_17_14__sha256_block_data_order_hw"),
  ("sha256_block_data_order_neon", "ring_core_0_17_14__sha256_block_data_order_neon"),
  ("sha256_block_data_order_nohw", "ring_core_0_17_14__sha256_block_data_order_nohw"),
  ("sha512_block_data_order", "ring_core_0_17_14__sha512_block_data_order"),
  ("sha512_block_data_order_avx", "ring_core_0_17_14__sha512_block_data_order_avx"),
  ("sha512_block_data_order_hw", "ring_core_0_17_14__sha512_block_data_order_hw"),
  ("sha512_block_data_order_neon", "ring_core_0_17_14__sha512_block_data_order_neon"),
  ("sha512_block_data_order_nohw", "ring_core_0_17_14__sha512_block_data_order_nohw"),
  ("vpaes_ctr32_encrypt_blocks", "ring_core_0_17_14__vpaes_ctr32_encrypt_blocks"),
  ("vpaes_encrypt", "ring_core_0_17_14__vpaes_encrypt"),
  ("vpaes_encrypt_key_to_bsaes", "ring_core_0_17_14__vpaes_encrypt_key_to_bsaes"),
  ("vpaes_set_encrypt_key", "ring_core_0_17_14__vpaes_set_encrypt_key"),
  ("x25519_NEON", "ring_core_0_17_14__x25519_NEON"),
  ("x25519_fe_invert", "ring_core_0_17_14__x25519_fe_invert"),
  ("x25519_fe_isnegative", "ring_core_0_17_14__x25519_fe_isnegative"),
  ("x25519_fe_mul_ttt", "ring_core_0_17_14__x25519_fe_mul_ttt"),
  ("x25519_fe_neg", "ring_core_0_17_14__x25519_fe_neg"),
  ("x25519_fe_tobytes", "ring_core_0_17_14__x25519_fe_tobytes"),
  ("x25519_ge_double_scalarmult_vartime", "ring_core_0_17_14__x25519_ge_double_scalarmult_vartime"),
  ("x25519_ge_frombytes_vartime", "ring_core_0_17_14__x25519_ge_frombytes_vartime"),
  ("x25519_ge_scalarmult_base", "ring_core_0_17_14__x25519_ge_scalarmult_base"),
  ("x25519_ge_scalarmult_base_adx", "ring_core_0_17_14__x25519_ge_scalarmult_base_adx"),
  ("x25519_public_from_private_generic_masked", "ring_core_0_17_14__x25519_public_from_private_generic_masked"),
  ("x25519_sc_mask", "ring_core_0_17_14__x25519_sc_mask"),
  ("x25519_sc_muladd", "ring_core_0_17_14__x25519_sc_muladd"),
  ("x25519_sc_reduce", "ring_core_0_17_14__x25519_sc_reduce"),
  ("x25519_scalar_mult_adx", "ring_core_0_17_14__x25519_scalar_mult_adx"),
  ("x25519_scalar_mult_generic_masked", "ring_core_0_17_14__x25519_scalar_mult_generic_masked")
]

/-- The renaming table of the header, selected by the platform conditional. -/
def symbols_asm : PlatformClass → List (String × String)
  | .apple => appleTable
  | .nonApple => nonAppleTable

/-- The canonical names of a platform class: the left-hand sides of its rules. -/
def canonicalNames (p : PlatformClass) : List String :=
  (symbols_asm p).map Prod.fst

/-- The exported names of a platform class: the right-hand sides of its rules. -/
def exportedNames (p : PlatformClass) : List String :=
  (symbols_asm p).map Prod.snd

/-- The Symbol Rewriter lookup: the exported name a canonical name is renamed
to, or none when no rule covers it (the missing-mapping condition). -/
def lookupSym (p : PlatformClass) (n : String) : Option String :=
  (symbols_asm p).lookup n

/-- One macro-substitution step: replace a name by its exported name when a
rule applies, keep it unchanged otherwise. -/
def stepSym (p : PlatformClass) (n : String) : String :=
  (lookupSym p n).getD n

/-- Whether the character list pat occurs at the start of the second list. -/
def charsLeadWith : List Char → List Char → Bool
  | [], _ => true
  | _ :: _, [] => false
  | a :: pa, b :: sb => a == b && charsLeadWith pa sb

/-- Whether the character list pat occurs somewhere inside the second list. -/
def charsContain (pat : List Char) : List Char → Bool
  | [] => pat.isEmpty
  | c :: t => charsLeadWith pat (c :: t) || charsContain pat t

/-- Whether the string pat occurs as a contiguous substring of s. -/
def strContains (s pat : String) : Bool :=
  charsContain pat.data s.data

/-- The version tag embedded in exported names on non-Apple platforms. -/
def versionTag : String := "ring_core_0_17_14"

/-- The Apple alternate form of the version tag. -/
def appleVersionTag : String := "_ring_core_0_17_14"

/-- The form of the version tag exported names of a platform class carry. -/
def platformTag : PlatformClass → String
  | .apple => appleVersionTag
  | .nonApple => versionTag

/-- The seven alias exported names of each branch: the right-hand sides of the
seven leading ecp_nistz256 rules of the header, in source order. -/
def aliasExports : PlatformClass → List String
  | .apple =>
      ["_p256_point_double", "_p256_point_add", "_p256_point_add_affine",
       "_p256_scalar_mul_mont", "_p256_scalar_sqr_rep_mont", "_p256_mul_mont",
       "_p256_sqr_mont"]
  | .nonApple =>
      ["p256_point_double", "p256_point_add", "p256_point_add_affine",
       "p256_scalar_mul_mont", "p256_scalar_sqr_rep_mont", "p256_mul_mont",
       "p256_sqr_mont"]

/-- The seven leading ecp_nistz256 alias rules of each branch, in source
order. -/
def aliasRules : PlatformClass → List (String × String)
  | .apple =>
      [("_ecp_nistz256_point_double", "_p256_point_double"),
       ("_ecp_nistz256_point_add", "_p256_point_add"),
       ("_ecp_nistz256_point_add_affine", "_p256_point_add_affine"),
       ("_ecp_nistz256_ord_mul_mont", "_p256_scalar_mul_mont"),
       ("_ecp_nistz256_ord_sqr_mont", "_p256_scalar_sqr_rep_mont"),
       ("_ecp_nistz256_mul_mont", "_p256_mul_mont"),
       ("_ecp_nistz256_sqr_mont", "_p256_sqr_mont")]
  | .nonApple =>
      [("ecp_nistz256_point_double", "p256_point_double"),
       ("ecp_nistz256_point_add", "p256_point_add"),
       ("ecp_nistz256_point_add_affine", "p256_point_add_affine"),
       ("ecp_nistz256_ord_mul_mont", "p256_scalar_mul_mont"),
       ("ecp_nistz256_ord_sqr_mont", "p256_scalar_sqr_rep_mont"),
       ("ecp_nistz256_mul_mont", "p256_mul_mont"),
       ("ecp_nistz256_sqr_mont", "p256_sqr_mont")]

/-- A consumer reading the table: each query looks its name up in the current
table and passes the table on to the next query; the pair returned is the list
of results together with the table left behind. -/
def runQueries : List String → List (String × String) →
    List (Option String) × List (String × String)
  | [], t => ([], t)
  | q :: qs, t =>
    let r := t.lookup q
    let next := runQueries qs t
    (r :: next.1, next.2)

/-- Modelled from the spec: the external generation step that emits the header
is not part of the repository; the spec describes it as a build step that, for
the fixed primitive set and the fixed library version, emits exactly this
table, so it is modelled as the constant function producing the two
branches. -/
def regenerateTables : Unit → List (String × String) × List (String × String) :=
  fun _ => (appleTable, nonAppleTable)

/-- A numeric code of a character list, used only to discharge
distinctness checks quickly: two lists with distinct codes are distinct. -/
def encodeChars : List Char → Nat
  | [] => 1
  | c :: t => encodeChars t * 256 + c.toNat

/-- The numeric code of a string, reduced so it fits in a machine word; two
strings with distinct codes are distinct, which is all the distinctness
arguments below use. -/
def encodeStr (s : String) : Nat := encodeChars s.data % 2305843009213693951

/-- Whether x differs from every element of the list. -/
def natNotMem (x : Nat) : List Nat → Bool
  | [] => true
  | y :: t => (x != y) && natNotMem x t

/-- Whether the elements of the list are pairwise distinct. -/
def natDistinct : List Nat → Bool
  | [] => true
  | x :: t => natNotMem x t && natDistinct t

/-- The codes of the canonical names of the Apple branch, in order. -/
def appleKeyCodes : List Nat :=
  [885028971024854051,
   578009315497136993,
   779225246805759517,
   161077553542983422,
   161079198540623614,
   2247722467907802143,
   2261233266789914014,
   1499889353215341450,
   111677694598032491,
   2259355363197152969,
   211044899310491314,
   211048046964388718,
   635371445011093167,
   317726933841147258,
   157069862795155122,
   157073010449052526,
   2013957680393305312,
   861036504856712504,
   861036569243195512,
   861036578877675640,
   861120672236050872,
   1804484056681815208,
   1398766523022384986,
   102024498781646722,
   926306034040207346,
   387119686113097706,
   2263787674221733861,
   421735746937669734,
   2092572052854438934,
   1399061191464365986,
   1399061191464345610,
   916155822409950372,
   1889550553884028470,
   608935112994281458,
   526489005621019574,
   40183142415982583,
   739105886708980634,
   40183142420703223,
   739105886713701274,
   809031599363226670,
   1219409394922728281,
   1219409407419182613,
   1219412465400901653,
   145240085346171697,
   881299779446946358,
   1617433413531199680,
   1365299432240572568,
   1365299741612435608,
   1208736204360073110,
   609218946374694282,
   2264313875260366281,
   209391445413608356,
   1474956231987256864,
   292708587328381955,
   821934287555475324,
   1131940049088575098,
   102600115386219997,
   1912672936783360577,
   1239249573397401074,
   393906021008549362,
   1468564342206205442,
   866271224694863484,
   1764871085722525216,
   837129563199930303,
   1867646114518538617,
   1072173744431154274,
   1072173729391068258,
   1097537772933945112,
   542279009002105072,
   542281641564138412,
   542950161175777196,
   505965717644421360,
   505968350206454700,
   506636869818093484,
   1635232918634749154,
   1635232931182015228,
   372967474732723966,
   1228675704858078997,
   372969119730364158,
   1228677349855719189,
   578009328126760477,
   578012540226875421,
   490994871048723507,
   490994971426852099,
   1096918892214594595,
   1952627122339949626,
   892348601022109402,
   892349193189814490,
   928377398041073370,
   928377990208778458,
   1648743717516861025,
   1648743730064127099,
   2037985467062645913,
   1966350097483707563,
   104756049665239802,
   365867727700536149,
   926583234452433658,
   370246929820334402,
   1808426983342672669,
   63299480880876227,
   679609387507933954,
   1500284487181689602,
   682819649948508930,
   1329164797353468688,
   1172260405268813553,
   1178419753992071781,
   1284434242870767591,
   2223766738673570523,
   892345968460076062,
   928374765479040030,
   111677952143964523,
   1547270874814311362,
   1915017483066401706,
   787247969873132546,
   224012683097095875,
   1933181827474121642,
   780260706677046338,
   230146773497226535,
   513172095888862021,
   1358488457178862627,
   1260729348522863602,
   2261108827401664994,
   1684560527969908581,
   896386061531274122,
   896342631493065610,
   1915017474526864298,
   224012674557558467,
   1933181818934584234,
   513172087349324613,
   1549667003728578907,
   2130046329942738020,
   266360167878899311,
   266363401666490991,
   439408896644412015,
   266360180475490927,
   267165967276634735,
   267185698691936879,
   265229882810447471,
   265233116598039151,
   265229895407039087,
   266035682208182895,
   266055413623485039,
   1867646114518347129,
   390430983436079570,
   1797766147109334547,
   2256558720736114088,
   2249883638314083025,
   1325435602709905582,
   1901924416624442347,
   158915579351842991,
   2253044875986314129,
   217374208358513903,
   2131550938073636607,
   793275031208438487,
   230837432286963445,
   442727353476703989,
   2266028929327603576,
   762458814869771258,
   163419178973130003,
   1937766514328202578,
   598376872872030552,
   905497128786324695]

/-- The codes of the canonical names of the non-Apple branch, in order. -/
def nonAppleKeyCodes : List Nat :=
  [1768868198347300267,
   20272247398142675,
   1714411707021123477,
   1432773890697345006,
   1432773897123117038,
   1738162422800535315,
   576286495497080597,
   393168510739860083,
   108522632051415468,
   963588727890034030,
   748421932281433942,
   135932395254569523,
   723057860086353942,
   244435500713323765,
   748211092295045910,
   135721555268181491,
   1169795726050624316,
   1957925662125891796,
   228543405467131032,
   228543405504765720,
   805004486297870361,
   664574311442505756,
   2266270944670545182,
   315650507114300527,
   1327676673392395383,
   1253512882682877175,
   1215807620737721575,
   64697800044662216,
   1656491573199064187,
   608947432846804143,
   1545696155339867231,
   625075482258417316,
   1943928896620422765,
   1326436943232059735,
   785682932840673411,
   1369251252120693215,
   534311888399675483,
   1369251252120711655,
   534311888399693923,
   1867650525416397947,
   2256563131634164906,
   1644073582360591725,
   1644073594305832815,
   1892079187578991802,
   1939990417032777913,
   880016426981482472,
   518743558427426280,
   518743559635910120,
   500117584809036095,
   389689329463138805,
   963608097077780957,
   622314683910775355,
   1744151003946211677,
   1478324070696774179,
   264419459198252343,
   247616020694759030,
   1135307887798092413,
   2043098410230774193,
   1328899109093009421,
   1325596985841490469,
   1473910057984524685,
   264592650358953078,
   1745283483843615069,
   867961165811384959,
   241482673258103833,
   31209776453407172,
   31209776394656836,
   1670619119052606742,
   1308162169316358312,
   695672630277416299,
   695675241682149263,
   1308020320521992360,
   695530781483050347,
   695533392887783311,
   1186330730959486940,
   1420517911631765490,
   1433601585701992430,
   1644109778834962414,
   1433601592127764462,
   1644109785260734446,
   1713625707338783637,
   1713625719886049711,
   1911444190720124379,
   1479098626884658828,
   1769695893351947691,
   1980204086484917675,
   1111371245055884630,
   1111371247369039728,
   1111511982544239958,
   1111511984857395056,
   24454803656032222,
   258641984328310772,
   530378437505690996,
   692228198428611124,
   1396525087803858602,
   2217200187477614250,
   1399735350244433578,
   2046080507895815864,
   1718432026304470794,
   900967189071290122,
   1470828202692734562,
   1474033964800835170,
   1470840742780393058,
   1599466318078817570,
   1319630233400266134,
   58646397692477482,
   1229996419905988847,
   1125579296410826642,
   1723860784094826643,
   1724001521583181971,
   108522633057454265,
   897756753074101611,
   683020481148802531,
   1471248665905098619,
   901594975017447230,
   683091435619145187,
   2047682124211662395,
   1802338861782171940,
   2073660407089994026,
   1770717649465089363,
   1328983014464593259,
   1188775558728107705,
   60623510090828407,
   390811076006719195,
   390810906358132443,
   683020481115444963,
   901594974984089662,
   683091435585787619,
   2073660407056636458,
   2275867598928044744,
   53356489750043780,
   145155657481632822,
   145155670113615602,
   145831629078373106,
   145155657530838258,
   145158805135530226,
   145158882211371250,
   145151242305584182,
   145151254937566962,
   145151242354789618,
   145154389959481586,
   145154467035322610,
   241482673258103085,
   1037353035324261265,
   1628318389865524397,
   666340228098967861,
   1035609323002637474,
   716746223947623936,
   1268437287916178107,
   721196704361122496,
   459160919283871139,
   1297885810684103292,
   1449478251610408862,
   1083962641159577002,
   1351981596931019750,
   1352809291935667174,
   234031656873710751,
   1399094239230438803,
   1621934222021242348,
   2196318819348655596,
   2245130024090163376,
   1084401008728240620]

/-- The codes of the exported names of the Apple branch, in order. -/
def appleExportCodes : List Nat :=
  [224012683097095875,
   1915017483066401706,
   787247969873132546,
   513172095888862021,
   1358488457178862627,
   1547270874814311362,
   1260729348522863602,
   742961188372153633,
   726017955133599445,
   453814712155986369,
   1792643816160574137,
   1194429428165066867,
   662293083225079863,
   713864244680146999,
   1824432896317699764,
   1226218508322192494,
   737949981831836152,
   1280464506091713169,
   1239633935635821231,
   55363155497824948,
   104973463740500907,
   104974271633640363,
   88438357444820934,
   1670279390392915909,
   1237936145831524134,
   1527327597421154533,
   1969801858268977172,
   247799661059262245,
   463881098586638510,
   1670297017542678469,
   1670275138979272645,
   2127550095474776069,
   1474513188440750777,
   2048927126238292174,
   912272831701489718,
   254280063230357248,
   2182276901537928208,
   259348811834404608,
   2187345650141975568,
   730719401680449074,
   2028332009940195086,
   1611239622632412948,
   1573663262997355684,
   912569556855793783,
   198467271774416192,
   1762284666537523335,
   1066337743553344381,
   1210452931629200397,
   513192957730242723,
   244152894609845529,
   708580077529109820,
   708605875367017244,
   2293249105085979659,
   1997191823722904603,
   1637683262568651788,
   1610749348853617982,
   215479919265361616,
   521105777097180696,
   2141160209183608865,
   244166200318265643,
   854925136018829636,
   2153292368487179383,
   2293249105220981783,
   755912392435422232,
   476801840798242504,
   770497589307239160,
   762229261866363633,
   1148470849706664926,
   1606400357036902927,
   1334830532688531161,
   649871072468111073,
   1606400357019993233,
   1334830532671621467,
   649871072451201379,
   517036107550208420,
   154502412778123690,
   1597342045445014060,
   1597342070539546208,
   1624363643209237802,
   1624363668303769950,
   221749403507796770,
   1952686919615557881,
   2303135383830029505,
   1708708834867045616,
   1627019278733786657,
   1627019303828318805,
   1300484862648921840,
   723046094752591876,
   1300484862665699056,
   723046094769369092,
   517036518799618468,
   154502824027533738,
   903050372610944066,
   2252212731837246535,
   519203819781488751,
   807434293765296079,
   86858255936614240,
   568747341406301576,
   807460622586564559,
   86884584757882720,
   1240885877715932304,
   2106702906460066783,
   1104089039036048383,
   1993462019844862712,
   1526808360936739723,
   2115835281313027925,
   650530843140824721,
   1124438759084554860,
   1572054686997293606,
   1572054687014070822,
   562695673310031693,
   1532425990429716381,
   1536399599853940428,
   844646351249303041,
   1542687458031394556,
   1536399599862398860,
   903105254191120447,
   233399564413236437,
   154025302592321765,
   109282015175921254,
   1532426041835892637,
   1373202997524549449,
   661897454948659210,
   1434573793171529481,
   2155149733550788617,
   1590513164126564040,
   1596801022304018168,
   1590513164135022472,
   208138866864945377,
   321335262316901926,
   717210860418797054,
   2183111109594465436,
   1836526352821799550,
   1730973236635884138,
   1873540312259249314,
   1225866390848405082,
   1586154361038053950,
   2183111109593939106,
   1836526352821273220,
   1873540312258722984,
   1225866390847878752,
   1586154361037527620,
   476596232123848392,
   1467556470299547676,
   1443427758076563420,
   157405858204187313,
   1371367069725232329,
   659894497856680859,
   1134794251502855846,
   1242881951713121291,
   1380444843884053259,
   2251669645293138859,
   161797675880759004,
   1167651760118315306,
   374331062884097314,
   1455194973551685287,
   1365173700048372966,
   1236325369810469579,
   1236349860508783627,
   1956925869360042763,
   464740162217010043,
   2141854796508011512]

/-- The codes of the exported names of the non-Apple branch, in order. -/
def nonAppleExportCodes : List Nat :=
  [901594975017447230,
   683020481148802531,
   1471248665905098619,
   2073660407089994026,
   1770717649465089363,
   897756753074101611,
   1328983014464593259,
   1750298847561831172,
   1065685519696677678,
   884478240683976537,
   817650447833566522,
   184809725048589632,
   1948142121380402239,
   1948343571229836095,
   772738627654225334,
   139897904869248444,
   1380984103091902385,
   455361777213970354,
   725418260440356786,
   765828198979147698,
   684957195953051723,
   684957199108884299,
   928086985572091007,
   925258852852303511,
   1797268339763111798,
   1212930823562719312,
   1637997603616982743,
   1784393419864729158,
   713380776665892424,
   925258921708357271,
   925258836245218967,
   1503505818847453015,
   816407750069035962,
   1007802738863118440,
   1940111405518147223,
   1451152361510293294,
   1602798787235788115,
   1451172161309527854,
   1602818587035022675,
   1903373415413163565,
   1584183041493502486,
   1636596969884027414,
   627643870698211868,
   219737506945251752,
   2027395095097092012,
   367171894668301880,
   274381359452985011,
   1571981002089109171,
   614494209313521216,
   1676292783626394220,
   1993358926225607316,
   1705128650846699898,
   1558196276132192731,
   1701154990452724091,
   1564642671314600411,
   2014897423451200660,
   1018655234220362414,
   1668367431568869381,
   1755760562486875919,
   1838422422187155592,
   2065988180648260720,
   224584080428186852,
   1666282667189611987,
   1669284644910034387,
   947618428938422294,
   1381111242183603178,
   1318028549246350314,
   1148400519608772643,
   1591542070229089993,
   1104092490846715598,
   1173474461993157518,
   456634964131658948,
   2275028393962978504,
   38567355895726473,
   623516420872246449,
   676143469155488945,
   1852715464586922945,
   15246816717786094,
   1834806619193707460,
   2303180980538264560,
   1757270063281945770,
   1394736368509861040,
   891702149557703268,
   1312718535823643236,
   1753752199477306301,
   2222126560821863401,
   1311123910932166190,
   1489012275839890991,
   1311123910932231726,
   1489012275839956527,
   623516422478689457,
   676143470761931953,
   2048161771344216683,
   2098467933083649387,
   146143327996877312,
   1011960356741011791,
   9346489316993391,
   371516838746749037,
   1011960459587969871,
   9346592163951471,
   446199973942136468,
   1161150812835206611,
   1445464728567293283,
   1385888446990390770,
   402280862368512787,
   2224035998233913046,
   452901098843068446,
   121485929214306938,
   1798573490314540585,
   1798573490314606121,
   2145911452602223406,
   564432392819057583,
   987786279703697582,
   1462465679077608293,
   1420156405877270878,
   411325527400307135,
   2021140387961166271,
   1063761229107926260,
   1207566361473544184,
   63477277654967886,
   564432393019862959,
   2113048699818472398,
   1542816609494102831,
   1536827677185544926,
   1539642426952651407,
   951968863795173550,
   1384338989968746846,
   375508111491783103,
   1171748945565020152,
   1793687867561882805,
   1434946286427328653,
   557966932311053892,
   286397107962680906,
   105840806007759834,
   610800866912409156,
   2265595553529240573,
   2014801349280046113,
   612010127839497788,
   340440303491124802,
   664844062440853052,
   13795739843990518,
   2068844544808490009,
   947617625779537942,
   1708093301608155095,
   1131538296522610575,
   739205205522371450,
   960120023618659340,
   543009668166712179,
   643943937131543462,
   1554093279439330003,
   1554630634486872706,
   693342727912241715,
   1126531929014033214,
   1833022588400383544,
   1757866085388884444,
   654202701706787694,
   1221304609155847876,
   977606915487849282,
   1554067763458063059,
   1556882513492638290,
   254016970391407971,
   1386468106274231195]

set_option maxRecDepth 1000000

set_option maxHeartbeats 2000000

theorem lookup_eq_none_of_not_mem {l : List (String × String)} {n : String}
    (h : n ∉ l.map Prod.fst) : l.lookup n = none := by
  induction l with
  | nil => rfl
  | cons r t ih =>
    simp only [List.map_cons, List.mem_cons] at h
    push_neg at h
    obtain ⟨h1, h2⟩ := h
    simp only [List.lookup, beq_false_of_ne h1]
    exact ih h2

theorem lookup_eq_some_of_mem {l : List (String × String)}
    (hnd : (l.map Prod.fst).Nodup) {n e : String}
    (h : (n, e) ∈ l) : l.lookup n = some e := by
  induction l with
  | nil => cases h
  | cons r t ih =>
    rcases List.mem_cons.mp h with h1 | h1
    · rw [← h1]
      simp [List.lookup]
    · have hnd2 : (t.map Prod.fst).Nodup := (List.nodup_cons.mp hnd).2
      have hne : n ≠ r.1 := by
        intro hEq
        have hmem : n ∈ t.map Prod.fst := List.mem_map.mpr ⟨(n, e), h1, rfl⟩
        rw [hEq] at hmem
        exact (List.nodup_cons.mp hnd).1 hmem
      simp only [List.lookup, beq_false_of_ne hne]
      exact ih hnd2 h1

theorem lookup_isSome_iff (l : List (String × String)) (n : String) :
    (l.lookup n).isSome = true ↔ n ∈ l.map Prod.fst := by
  induction l with
  | nil => simp [List.lookup]
  | cons r t ih =>
    by_cases hn : n = r.1
    · subst hn
      simp [List.lookup]
    · simp [List.lookup, beq_false_of_ne hn, ih, hn]

theorem charsContain_of_charsLeadWith {pat l : List Char}
    (h : charsLeadWith pat l = true) : charsContain pat l = true := by
  cases l with
  | nil =>
    cases pat with
    | nil => rfl
    | cons c cs => simp [charsLeadWith] at h
  | cons c t => simp [charsContain, h]

theorem charsContain_cons {pat l : List Char} (c : Char)
    (h : charsContain pat l = true) : charsContain pat (c :: l) = true := by
  simp [charsContain, h]

theorem natNotMem_correct {x : Nat} : ∀ {l : List Nat}, natNotMem x l = true → x ∉ l := by
  intro l
  induction l with
  | nil => intro _ h; cases h
  | cons y t ih =>
    intro h
    simp only [natNotMem, Bool.and_eq_true, bne_iff_ne] at h
    simp only [List.mem_cons, not_or]
    exact ⟨h.1, ih h.2⟩

theorem natDistinct_nodup : ∀ {l : List Nat}, natDistinct l = true → l.Nodup := by
  intro l
  induction l with
  | nil => intro _; exact List.nodup_nil
  | cons x t ih =>
    intro h
    simp only [natDistinct, Bool.and_eq_true] at h
    exact List.nodup_cons.mpr ⟨natNotMem_correct h.1, ih h.2⟩

theorem nodup_keys (p : PlatformClass) :
    ((symbols_asm p).map Prod.fst).Nodup := by
  apply List.Nodup.of_map encodeStr
  cases p with
  | apple =>
    have h : ((symbols_asm PlatformClass.apple).map Prod.fst).map encodeStr =
        appleKeyCodes := by decide
    rw [h]
    exact natDistinct_nodup (by decide)
  | nonApple =>
    have h : ((symbols_asm PlatformClass.nonApple).map Prod.fst).map encodeStr =
        nonAppleKeyCodes := by decide
    rw [h]
    exact natDistinct_nodup (by decide)

theorem nodup_exports (p : PlatformClass) :
    ((symbols_asm p).map Prod.snd).Nodup := by
  apply List.Nodup.of_map encodeStr
  cases p with
  | apple =>
    have h : ((symbols_asm PlatformClass.apple).map Prod.snd).map encodeStr =
        appleExportCodes := by decide
    rw [h]
    exact natDistinct_nodup (by decide)
  | nonApple =>
    have h : ((symbols_asm PlatformClass.nonApple).map Prod.snd).map encodeStr =
        nonAppleExportCodes := by decide
    rw [h]
    exact natDistinct_nodup (by decide)

theorem exports_shape (p : PlatformClass) :
    ∀ r ∈ symbols_asm p,
      r.2 ∈ aliasExports p ∨ charsLeadWith (platformTag p).data r.2.data = true := by
  cases p <;> decide

theorem canonical_no_tag (p : PlatformClass) :
    ∀ n ∈ canonicalNames p,
      charsLeadWith (platformTag p).data n.data = false := by
  cases p <;> decide

theorem alias_step (p : PlatformClass) :
    ∀ e ∈ aliasExports p,
      (lookupSym p e).isSome = true ∧
      charsLeadWith (platformTag p).data ((lookupSym p e).getD "").data = true := by
  cases p <;> decide

theorem alias_filter (p : PlatformClass) :
    (symbols_asm p).filter (fun r => decide (r.2 ∈ aliasExports p)) =
      aliasRules p := by
  cases p <;> decide

theorem alias_canonical (p : PlatformClass) :
    ∀ e ∈ aliasExports p, e ∈ canonicalNames p := by
  cases p <;> decide

theorem canonical_exports (p : PlatformClass) :
    (symbols_asm p).filter (fun r => decide (r.2 ∈ canonicalNames p)) =
      aliasRules p := by
  rw [← alias_filter p]
  apply List.filter_congr
  intro r hr
  apply decide_eq_decide.mpr
  constructor
  · intro hc
    rcases exports_shape p r hr with h1 | h1
    · exact h1
    · exfalso
      have h2 := canonical_no_tag p r.2 hc
      rw [h2] at h1
      cases h1
  · intro hal
    exact alias_canonical p r.2 hal

theorem strContains_versionTag_of_leadsWith (p : PlatformClass) (s : String)
    (h : charsLeadWith (platformTag p).data s.data = true) :
    strContains s versionTag = true := by
  cases p with
  | nonApple => exact charsContain_of_charsLeadWith h
  | apple =>
    have htag : (platformTag PlatformClass.apple).data = '_' :: versionTag.data := by
      decide
    rw [htag] at h
    cases hs : s.data with
    | nil =>
      rw [hs] at h
      simp [charsLeadWith] at h
    | cons c t =>
      rw [hs] at h
      simp only [charsLeadWith, Bool.and_eq_true] at h
      unfold strContains
      rw [hs]
      exact charsContain_cons c (charsContain_of_charsLeadWith h.2)

theorem conjugation_eq :
    appleTable = nonAppleTable.map (fun r => ("_" ++ r.1, "_" ++ r.2)) := by
  decide

/-- C1 counterexample: as stated, the claim that every rename rule of the
non-Apple branch has an exported name containing the version tag
ring_core_0_17_14 is false: the rule for ecp_nistz256_point_double is in the
non-Apple branch and its exported name p256_point_double does not contain the
tag. -/
theorem c1_counterexample :
    ("ecp_nistz256_point_double", "p256_point_double") ∈
        symbols_asm PlatformClass.nonApple ∧
    strContains "p256_point_double" versionTag = false := by
  constructor
  · decide
  · decide

/-- C1 (amended): every rename rule whose exported name is not one of the
seven p256 alias exported names has an exported name containing the version
tag ring_core_0_17_14 in the non-Apple branch and its Apple alternate form
_ring_core_0_17_14 in the Apple branch. -/
theorem c1_version_tag (p : PlatformClass) (r : String × String)
    (h : r ∈ symbols_asm p) (hal : r.2 ∉ aliasExports p) :
    strContains r.2 (platformTag p) = true := by
  rcases exports_shape p r h with h1 | h1
  · exact absurd h1 hal
  · exact charsContain_of_charsLeadWith h1

theorem c1_version_tag_witness :
    strContains "ring_core_0_17_14__CRYPTO_memcmp"
      (platformTag PlatformClass.nonApple) = true :=
  c1_version_tag PlatformClass.nonApple
    ("CRYPTO_memcmp", "ring_core_0_17_14__CRYPTO_memcmp") (by decide) (by decide)

/-- C2: within each platform class the renaming table is injective: two rules
with distinct canonical names have distinct exported names. -/
theorem c2_injective (p : PlatformClass) (r1 r2 : String × String)
    (h1 : r1 ∈ symbols_asm p) (h2 : r2 ∈ symbols_asm p) (hne : r1.1 ≠ r2.1) :
    r1.2 ≠ r2.2 := by
  intro heq
  exact hne (congrArg Prod.fst (List.inj_on_of_nodup_map (nodup_exports p) h1 h2 heq))

theorem c2_injective_witness :
    ("ring_core_0_17_14__CRYPTO_memcmp" : String) ≠
      "ring_core_0_17_14__ChaCha20_ctr32" :=
  c2_injective PlatformClass.nonApple
    ("CRYPTO_memcmp", "ring_core_0_17_14__CRYPTO_memcmp")
    ("ChaCha20_ctr32", "ring_core_0_17_14__ChaCha20_ctr32")
    (by decide) (by decide) (by decide)

/-- C3: CRYPTO_memcmp maps to _ring_core_0_17_14__CRYPTO_memcmp on Apple
platforms, where the canonical symbol carries the leading underscore, and to
ring_core_0_17_14__CRYPTO_memcmp elsewhere. -/
theorem c3_crypto_memcmp :
    lookupSym PlatformClass.apple "_CRYPTO_memcmp" =
      some "_ring_core_0_17_14__CRYPTO_memcmp" ∧
    lookupSym PlatformClass.nonApple "CRYPTO_memcmp" =
      some "ring_core_0_17_14__CRYPTO_memcmp" := by
  constructor
  · decide
  · decide

/-- C4: for each platform class the table is a total function on its
canonical-name set: every canonical name has exactly one exported name. -/
theorem c4_total_function (p : PlatformClass) (n : String)
    (h : n ∈ canonicalNames p) :
    ∃! e : String, (n, e) ∈ symbols_asm p := by
  obtain ⟨r, hr, hrn⟩ := List.mem_map.mp h
  refine ⟨r.2, ?_, ?_⟩
  · rw [← hrn]
    simpa using hr
  · intro e he
    have h2 : (n, e) = r :=
      List.inj_on_of_nodup_map (nodup_keys p) he hr hrn.symm
    exact congrArg Prod.snd h2

theorem c4_total_function_witness :
    ∃! e : String, ("CRYPTO_memcmp", e) ∈ symbols_asm PlatformClass.nonApple :=
  c4_total_function PlatformClass.nonApple "CRYPTO_memcmp" (by decide)

/-- C5: the canonical-name set of the Apple branch is exactly the
canonical-name set of the non-Apple branch with a leading underscore
prepended to every name. -/
theorem c5_canonical_sets :
    canonicalNames PlatformClass.apple =
      (canonicalNames PlatformClass.nonApple).map (fun n => "_" ++ n) := by
  show appleTable.map Prod.fst =
    (nonAppleTable.map Prod.fst).map (fun n => "_" ++ n)
  rw [conjugation_eq, List.map_map, List.map_map]
  rfl

/-- C6: the Apple branch is the non-Apple branch conjugated by the leading
underscore: every non-Apple rule from n to e appears in the Apple branch as a
rule from underscore-n to underscore-e, and the Apple branch consists of
exactly these rules. -/
theorem c6_conjugation :
    symbols_asm PlatformClass.apple =
      (symbols_asm PlatformClass.nonApple).map
        (fun r => ("_" ++ r.1, "_" ++ r.2)) :=
  conjugation_eq

/-- C7: the lookup yields an exported name exactly when the queried name is a
canonical name of the platform class; outside the canonical set it yields
none, the missing-mapping failure, and on the canonical set it never fails. -/
theorem c7_lookup_iff (p : PlatformClass) (n : String) :
    (lookupSym p n).isSome = true ↔ n ∈ canonicalNames p :=
  lookup_isSome_iff (symbols_asm p) n

/-- C8: the table is never mutated: a consumer running any sequence of
lookups leaves the table exactly as it was, and every query is answered from
the same fixed table. -/
theorem c8_immutable (p : PlatformClass) (qs : List String) :
    (runQueries qs (symbols_asm p)).2 = symbols_asm p ∧
    (runQueries qs (symbols_asm p)).1 = qs.map (lookupSym p) := by
  induction qs with
  | nil => exact ⟨rfl, rfl⟩
  | cons q t ih =>
    refine ⟨ih.1, ?_⟩
    show lookupSym p q :: (runQueries t (symbols_asm p)).1 =
      lookupSym p q :: t.map (lookupSym p)
    rw [ih.2]

/-- C9: regeneration, modelled from the spec as the build step emitting this
fixed table, is deterministic, and the renaming map itself is a deterministic
function: two rules for the same canonical name in the same platform class
carry the same exported name. -/
theorem c9_deterministic (u v : Unit) (p : PlatformClass) (n e1 e2 : String)
    (h1 : (n, e1) ∈ symbols_asm p) (h2 : (n, e2) ∈ symbols_asm p) :
    regenerateTables u = regenerateTables v ∧ e1 = e2 := by
  refine ⟨rfl, ?_⟩
  have h3 : (n, e1) = (n, e2) :=
    List.inj_on_of_nodup_map (nodup_keys p) h1 h2 rfl
  exact congrArg Prod.snd h3

theorem c9_deterministic_witness :
    regenerateTables () = regenerateTables () ∧
    ("ring_core_0_17_14__CRYPTO_memcmp" : String) =
      "ring_core_0_17_14__CRYPTO_memcmp" :=
  c9_deterministic () () PlatformClass.nonApple "CRYPTO_memcmp"
    "ring_core_0_17_14__CRYPTO_memcmp" "ring_core_0_17_14__CRYPTO_memcmp"
    (by decide) (by decide)

/-- C10: in each branch the rules whose exported name is again a canonical
name of the branch are exactly the seven ecp_nistz256 alias rules, and for
every canonical name repeated application of the renaming step reaches a
fixed point in at most two steps, a fixed point containing the
ring_core_0_17_14 version tag. -/
theorem c10_fixed_point (p : PlatformClass) :
    (symbols_asm p).filter (fun r => decide (r.2 ∈ canonicalNames p)) =
      aliasRules p ∧
    ∀ n ∈ canonicalNames p,
      stepSym p (stepSym p (stepSym p n)) = stepSym p (stepSym p n) ∧
      strContains (stepSym p (stepSym p n)) versionTag = true := by
  refine ⟨canonical_exports p, ?_⟩
  intro n hn
  obtain ⟨r, hr, hrn⟩ := List.mem_map.mp hn
  have hlook : lookupSym p n = some r.2 := by
    apply lookup_eq_some_of_mem (nodup_keys p)
    rw [← hrn]
    simpa using hr
  have hstep1 : stepSym p n = r.2 := by
    simp [stepSym, hlook]
  rcases exports_shape p r hr with h1 | h1
  · obtain ⟨hsome, hld⟩ := alias_step p r.2 h1
    obtain ⟨e2, he2⟩ := Option.isSome_iff_exists.mp hsome
    rw [he2] at hld
    simp only [Option.getD_some] at hld
    have hstep2 : stepSym p r.2 = e2 := by
      simp [stepSym, he2]
    have hnc : e2 ∉ canonicalNames p := by
      intro hc
      have h2 := canonical_no_tag p e2 hc
      rw [h2] at hld
      cases hld
    have hnone : lookupSym p e2 = none := lookup_eq_none_of_not_mem hnc
    have hstep3 : stepSym p e2 = e2 := by
      simp [stepSym, hnone]
    rw [hstep1, hstep2, hstep3]
    exact ⟨rfl, strContains_versionTag_of_leadsWith p e2 hld⟩
  · have hnc : r.2 ∉ canonicalNames p := by
      intro hc
      have h2 := canonical_no_tag p r.2 hc
      rw [h2] at h1
      cases h1
    have hnone : lookupSym p r.2 = none := lookup_eq_none_of_not_mem hnc
    have hstep2 : stepSym p r.2 = r.2 := by
      simp [stepSym, hnone]
    rw [hstep1, hstep2]
    exact ⟨hstep2, strContains_versionTag_of_leadsWith p r.2 h1⟩

theorem c10_fixed_point_witness :
    stepSym PlatformClass.nonApple (stepSym PlatformClass.nonApple
        (stepSym PlatformClass.nonApple "ecp_nistz256_point_double")) =
      stepSym PlatformClass.nonApple
        (stepSym PlatformClass.nonApple "ecp_nistz256_point_double") ∧
    strContains (stepSym PlatformClass.nonApple
        (stepSym PlatformClass.nonApple "ecp_nistz256_point_double"))
      versionTag = true :=
  (c10_fixed_point PlatformClass.nonApple).2 "ecp_nistz256_point_double"
    (by decide)

end SymbolsAsm
